import Mathlib

/-!
Shallow embedding of the net-echo service (src/main.py) for verification.

The embedding follows the source file function by function:
* IP-address classification mirrors CPython 3.11 `Lib/ipaddress.py`
  (the stdlib the source calls through `ipaddress.ip_address(...)`),
  with networks written as (base, size) ranges copied from the stdlib
  constant tables `_IPv4Constants` / `_IPv6Constants`.
* Python exceptions are modelled by `Except PyError`.
* External I/O (reverse DNS, RDAP registry via `whoisit`) is a record of
  stubbed backend functions, as the spec's design notes prescribe for tests.
* `random.choice` over the 18-entry fun-fact catalog is an explicit
  `Fin 18` argument; `datetime.datetime.now` is an explicit epoch argument.
-/

/-- Python exception taxonomy relevant to src/main.py.  `httpException`
models `fastapi.HTTPException` carrying an explicit status code; the source
never constructs one.  All other constructors are uncaught plain exceptions. -/
inductive PyError where
  | valueError (msg : String)
  | typeError (msg : String)
  | attributeError (msg : String)
  | indexError (msg : String)
  | validationError (msg : String)
  | overflowError (msg : String)
  | httpException (status : Nat) (msg : String)
  deriving DecidableEq, Repr

/-- A 400-class outcome: only an explicit `HTTPException` with a 4xx status
is surfaced by FastAPI as a client error. -/
def is_client_error : PyError → Bool
  | .httpException st _ => 400 ≤ st && st < 500
  | _ => false

/-- FastAPI maps an exception escaping a route handler to a response status:
an `HTTPException` keeps its status, every other uncaught exception is
surfaced as 500 Internal Server Error (framework default; the app in
src/main.py installs no exception handlers). -/
def fastapi_status_of : PyError → Nat
  | .httpException st _ => st
  | _ => 500

/-- Decidable equality of `Except` values, so concrete runs can be settled
by `decide`. -/
instance {e a : Type} [DecidableEq e] [DecidableEq a] :
    DecidableEq (Except e a) := fun x y =>
  match x, y with
  | .error u, .error v =>
    if h : u = v then isTrue (by rw [h])
    else isFalse (by intro hc; injection hc; exact h (by assumption))
  | .ok u, .ok v =>
    if h : u = v then isTrue (by rw [h])
    else isFalse (by intro hc; injection hc; exact h (by assumption))
  | .error _, .ok _ => isFalse (fun hc => Except.noConfusion hc)
  | .ok _, .error _ => isFalse (fun hc => Except.noConfusion hc)

/-- ASCII lowering of one character, as Python `str.lower` acts on the
ASCII header names this program handles. -/
def lowerChar (c : Char) : Char :=
  if 65 ≤ c.toNat && c.toNat ≤ 90 then Char.ofNat (c.toNat + 32) else c

/-- Python `str.lower` on ASCII strings (header names are ASCII). -/
def lowerStr (s : String) : String :=
  String.mk (s.data.map lowerChar)

/-- Python `str.startswith`. -/
def startsWithStr (s p : String) : Bool :=
  p.data.isPrefixOf s.data

/-- Python `str.strip()` with no argument: whitespace removed from both
ends. -/
def pyStrip (s : String) : String :=
  String.mk
    (((s.data.dropWhile Char.isWhitespace).reverse.dropWhile
      Char.isWhitespace).reverse)

/-- Python `ipaddress.IPv4Address` / `ipaddress.IPv6Address`: the integer value of
the address, tagged with the family (src/main.py line 120 parses the peer
address into one of these). -/
inductive IPAddr where
  | v4 (val : Nat)
  | v6 (val : Nat)
  deriving DecidableEq, Repr

/-- Address value is within the family's range (2^32 / 2^128). -/
def IPAddr.valid : IPAddr → Bool
  | .v4 v => v < 2 ^ 32
  | .v6 v => v < 2 ^ 128

/-- Python `a.version` in the source: 4 or 6. -/
def IPAddr.ip_version : IPAddr → Nat
  | .v4 _ => 4
  | .v6 _ => 6

/-- Integer value `int(a)`. -/
def IPAddr.toInt : IPAddr → Nat
  | .v4 v => v
  | .v6 v => v

/-- Membership of value `v` in the CIDR block starting at `lo` containing
`size` addresses. -/
def inRange (v lo size : Nat) : Bool :=
  lo ≤ v && v < lo + size

/-- CPython 3.11 `_IPv4Constants._private_networks`, as (base, size) pairs:
0.0.0.0/8, 10.0.0.0/8, 127.0.0.0/8, 169.254.0.0/16, 172.16.0.0/12,
192.0.0.0/29, 192.0.0.170/31, 192.0.2.0/24, 192.168.0.0/16, 198.18.0.0/15,
198.51.100.0/24, 203.0.113.0/24, 240.0.0.0/4, 255.255.255.255/32. -/
def v4_private_networks : List (Nat × Nat) :=
  [ (0, 2 ^ 24),
    (10 * 2 ^ 24, 2 ^ 24),
    (127 * 2 ^ 24, 2 ^ 24),
    (169 * 2 ^ 24 + 254 * 2 ^ 16, 2 ^ 16),
    (172 * 2 ^ 24 + 16 * 2 ^ 16, 2 ^ 20),
    (192 * 2 ^ 24, 8),
    (192 * 2 ^ 24 + 170, 2),
    (192 * 2 ^ 24 + 2 * 2 ^ 8, 2 ^ 8),
    (192 * 2 ^ 24 + 168 * 2 ^ 16, 2 ^ 16),
    (198 * 2 ^ 24 + 18 * 2 ^ 16, 2 ^ 17),
    (198 * 2 ^ 24 + 51 * 2 ^ 16 + 100 * 2 ^ 8, 2 ^ 8),
    (203 * 2 ^ 24 + 113 * 2 ^ 8, 2 ^ 8),
    (240 * 2 ^ 24, 2 ^ 28),
    (2 ^ 32 - 1, 1) ]

/-- Python `IPv4Address.is_private`: member of any private network. -/
def v4_is_private (v : Nat) : Bool :=
  v4_private_networks.any (fun p => inRange v p.1 p.2)

/-- Python `_IPv4Constants._public_network` = 100.64.0.0/10. -/
def v4_public_network : Nat × Nat := (100 * 2 ^ 24 + 64 * 2 ^ 16, 2 ^ 22)

/-- Python `IPv4Address.is_global` (CPython 3.11):
`self not in _public_network and not self.is_private`. -/
def v4_is_global (v : Nat) : Bool :=
  !inRange v v4_public_network.1 v4_public_network.2 && !v4_is_private v

/-- Python `IPv4Address.is_multicast`: 224.0.0.0/4. -/
def v4_is_multicast (v : Nat) : Bool :=
  inRange v (224 * 2 ^ 24) (2 ^ 28)

/-- Python `IPv4Address.is_loopback`: 127.0.0.0/8. -/
def v4_is_loopback (v : Nat) : Bool :=
  inRange v (127 * 2 ^ 24) (2 ^ 24)

/-- Python `IPv4Address.is_link_local`: 169.254.0.0/16. -/
def v4_is_link_local (v : Nat) : Bool :=
  inRange v (169 * 2 ^ 24 + 254 * 2 ^ 16) (2 ^ 16)

/-- CPython 3.11 `_IPv6Constants._private_networks`, as (base, size) pairs:
::1/128, ::/128, ::ffff:0:0/96, 100::/64, 2001::/23, 2001:2::/48,
2001:db8::/32, 2001:10::/28, fc00::/7, fe80::/10. -/
def v6_private_networks : List (Nat × Nat) :=
  [ (1, 1),
    (0, 1),
    (0xffff * 2 ^ 32, 2 ^ 32),
    (0x0100 * 2 ^ 112, 2 ^ 64),
    (0x2001 * 2 ^ 112, 2 ^ 105),
    (0x2001 * 2 ^ 112 + 0x0002 * 2 ^ 80, 2 ^ 80),
    (0x2001 * 2 ^ 112 + 0x0db8 * 2 ^ 96, 2 ^ 96),
    (0x2001 * 2 ^ 112 + 0x0010 * 2 ^ 96, 2 ^ 100),
    (0xfc00 * 2 ^ 112, 2 ^ 121),
    (0xfe80 * 2 ^ 112, 2 ^ 118) ]

/-- Python `IPv6Address.ipv4_mapped`: `some v4val` when the address is in
::ffff:0:0/96. -/
def v6_ipv4_mapped (v : Nat) : Option Nat :=
  if inRange v (0xffff * 2 ^ 32) (2 ^ 32) then some (v % 2 ^ 32) else none

/-- Python `IPv6Address.is_private` (CPython 3.11): defers to the mapped IPv4
address when there is one, else membership in the private table. -/
def v6_is_private (v : Nat) : Bool :=
  match v6_ipv4_mapped v with
  | some m => v4_is_private m
  | none => v6_private_networks.any (fun p => inRange v p.1 p.2)

/-- Python `IPv6Address.is_global`: `not self.is_private`. -/
def v6_is_global (v : Nat) : Bool :=
  !v6_is_private v

/-- Python `IPv6Address.is_multicast`: ff00::/8. -/
def v6_is_multicast (v : Nat) : Bool :=
  inRange v (0xff00 * 2 ^ 112) (2 ^ 120)

/-- Python `IPv6Address.is_loopback`: the address ::1. -/
def v6_is_loopback (v : Nat) : Bool :=
  v == 1

/-- Python `IPv6Address.is_link_local`: fe80::/10. -/
def v6_is_link_local (v : Nat) : Bool :=
  inRange v (0xfe80 * 2 ^ 112) (2 ^ 118)

/-- Python `client_ip.is_global` at src/main.py line 142. -/
def IPAddr.is_global : IPAddr → Bool
  | .v4 v => v4_is_global v
  | .v6 v => v6_is_global v

/-- Python `is_private` on either family. -/
def IPAddr.is_private : IPAddr → Bool
  | .v4 v => v4_is_private v
  | .v6 v => v6_is_private v

/-- Python `is_multicast` on either family. -/
def IPAddr.is_multicast : IPAddr → Bool
  | .v4 v => v4_is_multicast v
  | .v6 v => v6_is_multicast v

/-- Python `is_loopback` on either family. -/
def IPAddr.is_loopback : IPAddr → Bool
  | .v4 v => v4_is_loopback v
  | .v6 v => v6_is_loopback v

/-- Python `is_link_local` on either family. -/
def IPAddr.is_link_local : IPAddr → Bool
  | .v4 v => v4_is_link_local v
  | .v6 v => v6_is_link_local v

/-- Lowercase hex digit, as CPython renders IPv6 hextets (`'%x'`). -/
def hexDigitChar (n : Nat) : Char :=
  if n < 10 then Char.ofNat (48 + n) else Char.ofNat (87 + n)

/-- Hex rendering of a natural, no leading zeros (`'%x' % n`). -/
def hexStr (n : Nat) : String :=
  if _h : n < 16 then String.singleton (hexDigitChar n)
  else hexStr (n / 16) ++ String.singleton (hexDigitChar (n % 16))
termination_by n
decreasing_by exact Nat.div_lt_self (by omega) (by omega)

/-- Python `str(IPv4Address)`: dotted quad. -/
def v4Str (v : Nat) : String :=
  toString (v / 2 ^ 24 % 256) ++ "." ++ toString (v / 2 ^ 16 % 256) ++ "." ++
    toString (v / 2 ^ 8 % 256) ++ "." ++ toString (v % 256)

/-- The eight 16-bit groups of an IPv6 value, most significant first. -/
def v6Hextets (v : Nat) : List Nat :=
  [ v / 2 ^ 112 % 65536, v / 2 ^ 96 % 65536, v / 2 ^ 80 % 65536,
    v / 2 ^ 64 % 65536, v / 2 ^ 48 % 65536, v / 2 ^ 32 % 65536,
    v / 2 ^ 16 % 65536, v % 65536 ]

/-- Length of the run of zeros at the head of the list. -/
def runLenFrom : List Nat → Nat
  | [] => 0
  | x :: xs => if x == 0 then 1 + runLenFrom xs else 0

/-- Leftmost longest run of zero groups, as `_compress_hextets` finds it:
the best (start, length) pair, updated only on strictly greater length. -/
def bestZeroRun (l : List Nat) : Nat × Nat :=
  ((List.range l.length).map (fun i => (i, runLenFrom (l.drop i)))).foldl
    (fun best c => if best.2 < c.2 then c else best) (0, 0)

/-- Python `str(IPv6Address)`: CPython `_string_from_ip_int` with
`_compress_hextets` — the longest zero run (length > 1) becomes `::`. -/
def v6Str (v : Nat) : String :=
  let hx := v6Hextets v
  let strs := hx.map hexStr
  let best := bestZeroRun hx
  if 1 < best.2 then
    let parts := strs.take best.1 ++ [""] ++ strs.drop (best.1 + best.2) ++
      (if best.1 + best.2 == 8 then [""] else [])
    let parts := if best.1 == 0 then "" :: parts else parts
    String.intercalate ":" parts
  else
    String.intercalate ":" strs

/-- Python `str(client_ip)` in the source. -/
def IPAddr.str : IPAddr → String
  | .v4 v => v4Str v
  | .v6 v => v6Str v

/-- Python `IPv4Address.reverse_pointer`: reversed octets + `.in-addr.arpa`. -/
def v4_reverse_pointer (v : Nat) : String :=
  toString (v % 256) ++ "." ++ toString (v / 2 ^ 8 % 256) ++ "." ++
    toString (v / 2 ^ 16 % 256) ++ "." ++ toString (v / 2 ^ 24 % 256) ++
    ".in-addr.arpa"

/-- Python `IPv6Address.reverse_pointer`: the 32 nibbles least-significant first,
dot-separated, + `.ip6.arpa`. -/
def v6_reverse_pointer (v : Nat) : String :=
  String.intercalate "."
      ((List.range 32).map (fun i => String.singleton (hexDigitChar (v / 16 ^ i % 16))))
    ++ ".ip6.arpa"

/-- Python `client_ip.reverse_pointer` at src/main.py line 150. -/
def IPAddr.reverse_pointer : IPAddr → String
  | .v4 v => v4_reverse_pointer v
  | .v6 v => v6_reverse_pointer v

/-- Model of an aware Python `datetime`: the instant in epoch seconds plus
the UTC offset (minutes) of its `tzinfo`.  Naive datetimes (no offset in
the ISO string) are outside the model: their `astimezone` depends on the
process's system timezone; every claim here concerns aware values. -/
structure PyDatetime where
  epochSeconds : Int
  offsetMinutes : Int
  deriving DecidableEq, Repr

/-- Days from 1970-01-01 to the given civil date (proleptic Gregorian),
the standard era-based algorithm; all intermediate divisions act on
non-negative operands for years in [0, 9999]. -/
def daysFromCivil (y m d : Int) : Int :=
  let y1 := if m ≤ 2 then y - 1 else y
  let era := (if 0 ≤ y1 then y1 else y1 - 399) / 400
  let yoe := y1 - era * 400
  let mp := (m + 9) % 12
  let doy := (153 * mp + 2) / 5 + d - 1
  let doe := yoe * 365 + yoe / 4 - yoe / 100 + doy
  era * 146097 + doe - 719468

/-- Gregorian leap-year test. -/
def isLeapYear (y : Nat) : Bool :=
  (y % 4 == 0 && y % 100 != 0) || y % 400 == 0

/-- Days in a month, as `datetime` validates them. -/
def daysInMonth (y m : Nat) : Nat :=
  if m == 2 then (if isLeapYear y then 29 else 28)
  else if m == 4 || m == 6 || m == 9 || m == 11 then 30
  else 31

/-- Numeric value of a decimal digit. -/
def digitVal (c : Char) : Option Nat :=
  if c.isDigit then some (c.toNat - 48) else none

/-- Parse exactly `n` decimal digits. -/
def parseNDigits : Nat → List Char → Option (Nat × List Char)
  | 0, cs => some (0, cs)
  | n + 1, c :: cs => do
    let d ← digitVal c
    let (r, rest) ← parseNDigits n cs
    pure (d * 10 ^ n + r, rest)
  | _ + 1, [] => none

/-- Consume one expected character. -/
def expectChar (c : Char) : List Char → Option (List Char)
  | x :: xs => if x == c then some xs else none
  | [] => none

/-- Parse a UTC-offset tail `HH:MM`, in minutes. -/
def parseUtcOffTail (cs : List Char) : Option Int := do
  let (oh, cs) ← parseNDigits 2 cs
  let cs ← expectChar ':' cs
  let (om, cs) ← parseNDigits 2 cs
  match cs with
  | [] => if oh < 24 && om < 60 then some ((oh : Int) * 60 + om) else none
  | _ => none

/-- Parse an offset-aware ISO-8601 string
`YYYY-MM-DD[T ]HH:MM:SS(+|-)HH:MM` or with a trailing `Z`. -/
def parseAwareIso (cs : List Char) : Option PyDatetime := do
  let (y, cs) ← parseNDigits 4 cs
  let cs ← expectChar '-' cs
  let (mo, cs) ← parseNDigits 2 cs
  let cs ← expectChar '-' cs
  let (d, cs) ← parseNDigits 2 cs
  let cs ← (match cs with
    | 'T' :: r => some r
    | ' ' :: r => some r
    | _ => none)
  let (h, cs) ← parseNDigits 2 cs
  let cs ← expectChar ':' cs
  let (mi, cs) ← parseNDigits 2 cs
  let cs ← expectChar ':' cs
  let (se, cs) ← parseNDigits 2 cs
  let offMin : Int ← (match cs with
    | ['Z'] => some 0
    | '+' :: r => parseUtcOffTail r
    | '-' :: r => (parseUtcOffTail r).map (fun x => -x)
    | _ => none)
  if 1 ≤ mo && mo ≤ 12 && 1 ≤ d && d ≤ daysInMonth y mo &&
      h < 24 && mi < 60 && se < 60 then
    some ⟨daysFromCivil y mo d * 86400 + h * 3600 + mi * 60 + se - offMin * 60,
          offMin⟩
  else none

/-- Model of `datetime.datetime.fromisoformat` (src/main.py line 132) on
the offset-aware fragment; any other string raises `ValueError` as in
Python (strings Python would accept as naive datetimes are mapped to the
error case too, see `PyDatetime`). -/
def fromisoformat (s : String) : Except PyError PyDatetime :=
  match parseAwareIso s.data with
  | some dt => .ok dt
  | none => .error (.valueError ("Invalid isoformat string: " ++ s))

/-- Model of a `zoneinfo.ZoneInfo` timezone: UTC offset in minutes as a
function of the instant. -/
structure Tz where
  offsetAt : Int → Int

/-- DST intervals of Europe/Berlin for 2023-2025, [start, end) in UTC epoch
seconds, transcribed from the tzdata table the source loads through
`ZoneInfo(os.getenv("TZ", "Europe/Berlin"))` (src/main.py line 130):
last Sunday of March 01:00 UTC to last Sunday of October 01:00 UTC. -/
def berlin_dst_intervals : List (Int × Int) :=
  [ (1679792400, 1698541200),
    (1711846800, 1729990800),
    (1743296400, 1761440400) ]

/-- Europe/Berlin: CEST (UTC+2) inside a DST interval, CET (UTC+1)
otherwise; faithful for instants within 2022-10-30 .. 2026-03-29. -/
def europe_berlin : Tz :=
  ⟨fun t => if berlin_dst_intervals.any (fun p => decide (p.1 ≤ t) && decide (t < p.2)) then 120 else 60⟩

/-- Model of aware `datetime.astimezone(tz)`: same instant, the target
zone's offset. -/
def astimezone (dt : PyDatetime) (tz : Tz) : PyDatetime :=
  ⟨dt.epochSeconds, tz.offsetAt dt.epochSeconds⟩

/-- Model of `datetime.datetime.now(tz)` at the given true instant. -/
def datetime_now (nowEpoch : Int) (tz : Tz) : PyDatetime :=
  ⟨nowEpoch, tz.offsetAt nowEpoch⟩

/-- Lookup in a string-keyed association list, as Python `dict.get`. -/
def assocGet {α : Type} (l : List (String × α)) (k : String) : Option α :=
  (l.find? (fun kv => kv.1 == k)).map (fun kv => kv.2)

/-- Lookup in a headers dict. -/
def dictGet (d : List (String × String)) (k : String) : Option String :=
  assocGet d k

/-- One entity record of a parsed `whoisit` RDAP response: only the `name`
key is read by the source. -/
structure RegistryEntity where
  name : Option String
  deriving DecidableEq, Repr

/-- The parts of a parsed `whoisit.ip` response the source reads: the
top-level keys `url`, `country`, `name`, `description`, and `entities`,
the latter a dict from role (e.g. "registrant") to a list of entities.
A key absent from the response dict is `none`. -/
structure RegistryResponse where
  url : Option String
  country : Option String
  name : Option String
  description : Option (List String)
  entities : Option (List (String × List RegistryEntity))
  deriving DecidableEq, Repr

/-- Model of the registrant expression at src/main.py line 154,
`client_ip_info.get("entities").get("registrant")[0].get("name") if
client_ip_info else None`, with the exceptions each step of the chain
raises in Python when the data is missing:
`.get` on `None` raises AttributeError, `None[0]` raises TypeError,
`[][0]` raises IndexError. -/
def registrant_field (info : Option RegistryResponse) :
    Except PyError (Option String) :=
  match info with
  | none => .ok none
  | some i =>
    match i.entities with
    | none => .error (.attributeError "NoneType object has no attribute get")
    | some ents =>
      match assocGet ents "registrant" with
      | none => .error (.typeError "NoneType object is not subscriptable")
      | some [] => .error (.indexError "list index out of range")
      | some (e :: _) => .ok e.name

/-- CPython raises OverflowError when converting an int to float above the
double range; the exact threshold is the largest finite double rounded up,
modelled as 2^1024 (every value this program converts is below 2^134, so
the rounding at the very top of the range is unobservable). -/
def FLOAT_OVERFLOW_BOUND : Nat := 2 ^ 1024

/-- Conversion of a Python int to float, keeping only the failure
behavior. -/
def int_to_float_check (n : Nat) : Except PyError Unit :=
  if n < FLOAT_OVERFLOW_BOUND then .ok ()
  else .error (.overflowError "int too large to convert to float")

/-- Model of `ipaddress.ip_address(int)`: IPv4 for values below 2^32, IPv6
below 2^128, ValueError beyond. -/
def ip_address_of_int (m : Nat) : Except PyError IPAddr :=
  if m < 2 ^ 32 then .ok (.v4 m)
  else if m < 2 ^ 128 then .ok (.v6 m)
  else .error (.valueError "int out of range for an IP address")

/-- Integer value of the square root of n: stands in for the decimal
rendering of `math.sqrt`; the digits of the double are abstracted, while
the only failure mode (OverflowError converting the int argument) is
modelled exactly in the caller. -/
def sqrt_repr (n : Nat) : String := toString (Nat.sqrt n)

/-- Left-pad a decimal string with zeros. -/
def leftPadZeros (s : String) (n : Nat) : String :=
  if s.length < n then String.mk (List.replicate (n - s.length) '0') ++ s
  else s

/-- Scientific-notation rendering of a natural, as Python `format(n, 'e')`
renders the converted double: seven significant digits and a two-digit-or-
more exponent (digit rounding of the double is abstracted as half-up; only
totality and the overflow check feed any claim). -/
def sciRepr (n : Nat) : String :=
  if n == 0 then "0.000000e+00"
  else
    let ds := (toString n).length
    let e0 := ds - 1
    let q0 := if ds ≤ 7 then n * 10 ^ (7 - ds)
              else (n + 10 ^ (ds - 7) / 2) / 10 ^ (ds - 7)
    let q := if q0 == 10 ^ 7 then 10 ^ 6 else q0
    let e := if q0 == 10 ^ 7 then e0 + 1 else e0
    toString (q / 10 ^ 6) ++ "." ++ leftPadZeros (toString (q % 10 ^ 6)) 6 ++
      "e+" ++ leftPadZeros (toString e) 2

/-- Number of 1 bits of n — Python `bin(int(a)).count("1")`. -/
def popcount (n : Nat) : Nat :=
  if _h : n = 0 then 0 else n % 2 + popcount (n / 2)
termination_by n
decreasing_by exact Nat.div_lt_self (by omega) (by decide)

/-- Number of binary digits of n, with one digit for zero —
the digits of Python `bin(n)` after the `0b` prefix. -/
def binDigitCount (n : Nat) : Nat :=
  if _h : n < 2 then 1 else 1 + binDigitCount (n / 2)
termination_by n
decreasing_by exact Nat.div_lt_self (by omega) (by decide)

/-- Python `bin(int(a)).count("0")` — zero bits of the value plus one more
for the `0` of the `0b` prefix, exactly as the source's string count
behaves. -/
def zeroBitCount (n : Nat) : Nat :=
  binDigitCount n - popcount n + 1

/-- Model of the source's `multiply_ip` lambda (src/main.py line 72):
`str(ipaddress.ip_address(math.floor(int(x) * y) % (IPV4_MAX if x.version
== 4 else IPV6_MAX)))` with IPV4_MAX = 2^32 - 1 and IPV6_MAX = 2^128 - 1.
The float factor y is the rational ynum/yden (double rounding abstracted;
the int-to-float conversion check and the floor of an overflowed product
are modelled). -/
def multiply_ip (x : IPAddr) (ynum yden : Nat) : Except PyError String :=
  match int_to_float_check x.toInt with
  | .error e => .error e
  | .ok _ =>
    match int_to_float_check (x.toInt * ynum / yden) with
    | .error e => .error e
    | .ok _ =>
      match ip_address_of_int (x.toInt * ynum / yden %
          (if x.ip_version == 4 then 2 ^ 32 - 1 else 2 ^ 128 - 1)) with
      | .error e => .error e
      | .ok a => .ok a.str

/-- Model of `ip_fun_fact` (src/main.py lines 68-102): the 18-entry
catalog, selected by the explicit `choice` standing for `random.choice`.
Every entry of the source list is a lambda, so the `isinstance(..., str)`
branch at line 99 is dead and each entry is applied to the address.
Decimal constants of the doubles math.pi, math.e and 0.42 appear as
rationals. -/
def ip_fun_fact (a : IPAddr) (choice : Fin 18) : Except PyError String :=
  match choice.val with
  | 0 => do
    let _ ← int_to_float_check a.toInt
    pure ("The square root of your IP address is " ++ sqrt_repr a.toInt ++ ".")
  | 1 => pure ("Your IP address contains " ++ toString (popcount a.toInt) ++
      " bits that are set to 1.")
  | 2 => pure ("Your IP address contains " ++ toString (zeroBitCount a.toInt) ++
      " bits that are set to 0.")
  | 3 => pure ("Your IP address has been known to associate with at least " ++
      toString (a.toInt % 41) ++ " russian cyber criminals.")
  | 4 => pure ("Your IP address modulo some (unknown!) prime is " ++
      toString (a.toInt % 31) ++ ".")
  | 5 => do
    let s ← multiply_ip a 3141592653589793 (10 ^ 15)
    pure ("You may also like " ++ s ++ ".")
  | 6 => do
    let s ← multiply_ip a 2718281828459045 (10 ^ 15)
    pure ("You may also like " ++ s ++ ".")
  | 7 => pure "NaN"
  | 8 => pure ("I can\x27t deal with this. Please delimit your IP address " ++
      "with semicolons, not " ++
      (if a.ip_version == 4 then "dots" else "colons") ++ ".")
  | 9 => do
    let s ← multiply_ip a 42 100
    pure ("Would you also like to buy this IP address: " ++ s ++
      "? Please ring us at 555-162-321.")
  | 10 => pure "Google knows your IP."
  | 11 => do
    let _ ← int_to_float_check (a.toInt * 53 * 5)
    pure ("Printing all IP addresses (one per line) preceding yours on " ++
      "80 g/m^2 A4 paper with a font size of 12 pt would weigh " ++
      sciRepr (a.toInt * 53 * 5) ++ " g.")
  | 12 => do
    let _ ← int_to_float_check a.toInt
    pure ("Printing all IP addresses (one per line) preceding yours on " ++
      "A4 paper with a font size of 12 pt would generate " ++
      sciRepr ((a.toInt + 52) / 53) ++ " pages.")
  | 13 => pure "I am in a computer."
  | 14 => pure "I am at the 32 bit integer limit."
  | 15 => pure ("Your IP\x27s integer representation is " ++
      toString a.toInt ++ ".")
  | 16 => pure "Dude, Where\x27s My DNS server?"
  | _ => pure "Get off my LAN!"

/-- Stubbed external backends, the injectable capabilities of the spec's
design notes: `socket.getnameinfo` (first component of its result),
`socket.getfqdn`, and `whoisit.ip_async`.  The reverse-lookup functions are
total: without `NI_NAMEREQD`, `getnameinfo` answers the numeric form on
failure or absence of a PTR record rather than raising, and `getfqdn`
returns its argument unchanged on failure.  The registry call may raise,
which `Except` captures. -/
structure Backends where
  getnameinfo : String → String
  getfqdn : String → String
  whois_ip : IPAddr → Except PyError RegistryResponse

/-- Configuration read from the environment at import time
(src/main.py lines 23-26 and 130): the four override header names and the
timezone. -/
structure Config where
  header_client_port : String
  header_http_version : String
  header_transport_protocol : String
  header_request_time : String
  tz : Tz

/-- Defaults of the four header names (src/main.py lines 23-26) and the
default timezone Europe/Berlin (line 130). -/
def default_config : Config :=
  { header_client_port := "X-Client-Port",
    header_http_version := "X-Http-Version",
    header_transport_protocol := "X-Transport-Protocol",
    header_request_time := "X-Request-Time",
    tz := europe_berlin }

/-- The per-request data the framework hands to `get_request_info`:
URL parts, method, the ASGI scope's `http_version`, the transport-observed
peer address and port, the headers dict (Starlette lowercases all header
names), and the body.  The peer address arrives already parsed as at
src/main.py line 120. -/
structure RequestData where
  url_hostname : Option String
  url_scheme : String
  url_path : String
  url_query : String
  url_full : String
  method : String
  scope_http_version : String
  client_ip : IPAddr
  client_port : Nat
  headers : List (String × String)
  body : String

/-- Response model `AddressInfo` (src/main.py lines 37-47). -/
structure AddressInfo where
  ip : String
  ip_version : Nat
  reverse_dns : Option String
  reverse_pointer : String
  ip_info_url : Option String
  country : Option String
  registrant : Option String
  entity_name : Option String
  description : Option (List String)
  fun_fact : Option String
  deriving DecidableEq, Repr

/-- Response model `HttpInfo` (src/main.py lines 49-58). -/
structure HttpInfo where
  method : String
  version : String
  headers : List (String × String)
  body : String
  is_https : Bool
  transport_protocol : String
  url : String
  path : String
  query : String
  deriving DecidableEq, Repr

/-- Response model `RequestInfo` (src/main.py lines 60-66). -/
structure RequestInfo where
  address_info : AddressInfo
  http_info : Option HttpInfo
  request_hostname : Option String
  client_port : Int
  scheme : String
  request_time : PyDatetime
  deriving DecidableEq, Repr

/-- Reverse DNS of the client (src/main.py lines 121-123):
`socket.getfqdn(socket.getnameinfo((str(client_ip), 0), 0)[0])`, then
`None` when the stripped result equals `str(client_ip)` — "set none if we
didn't actually get a reverse dns record back". -/
def reverse_dns_of (ipText : String) (b : Backends) : Option String :=
  let r := b.getfqdn (b.getnameinfo ipText)
  if pyStrip r == ipText then none else some r

/-- Header stripping (src/main.py lines 134-139): every header whose
lowercased name starts with "x-" is popped from the copy that is kept. -/
def strip_x_headers (hs : List (String × String)) : List (String × String) :=
  hs.filter (fun kv => !(startsWithStr (lowerStr kv.1) "x-"))

/-- Effective client port before pydantic coercion (src/main.py line 126):
`request.client.port if request.client.port != 0 else
headers.get(header_client_port.lower(), 0)`. -/
inductive PortVal where
  | ofNat (n : Nat)
  | ofStr (s : String)
  deriving DecidableEq, Repr

/-- The value of the line 126 conditional expression. -/
def client_port_raw (sockPort : Nat) (headers : List (String × String))
    (hname : String) : PortVal :=
  if sockPort != 0 then .ofNat sockPort
  else
    match dictGet headers (lowerStr hname) with
    | some s => .ofStr s
    | none => .ofNat 0

/-- Coercion pydantic applies to the `client_port: int` field of
`RequestInfo`: ints pass through, strings are trimmed and must be an
optionally signed decimal numeral, anything else is a validation error. -/
def pydantic_coerce_int : PortVal → Except PyError Int
  | .ofNat n => .ok n
  | .ofStr s =>
    let t := (pyStrip s).data
    let signAndDigits : Bool × List Char :=
      match t with
      | '-' :: rest => (true, rest)
      | '+' :: rest => (false, rest)
      | _ => (false, t)
    let ds := signAndDigits.2
    if 0 < ds.length && ds.all Char.isDigit then
      let v : Nat := ds.foldl (fun acc c => acc * 10 + (c.toNat - 48)) 0
      .ok (if signAndDigits.1 then -(v : Int) else (v : Int))
    else .error (.validationError ("value is not a valid integer: " ++ s))

/-- Effective request time (src/main.py lines 128-132): the header value
when present and non-empty (Python string truthiness) is parsed with
`fromisoformat` — a raised ValueError propagates — and converted with
`astimezone(tz)`; otherwise `datetime.now(tz)`. -/
def effective_request_time (cfg : Config) (headers : List (String × String))
    (nowEpoch : Int) : Except PyError PyDatetime :=
  match dictGet headers (lowerStr cfg.header_request_time) with
  | none => .ok (datetime_now nowEpoch cfg.tz)
  | some s =>
    if s == "" then .ok (datetime_now nowEpoch cfg.tz)
    else (fromisoformat s).map (fun dt => astimezone dt cfg.tz)

/-- Registry enrichment step (src/main.py lines 141-143): invoked only when
`client_ip.is_global`; an exception raised by `whoisit.ip_async` is not
caught and propagates. -/
def registry_lookup (b : Backends) (ip : IPAddr) :
    Except PyError (Option RegistryResponse) :=
  if ip.is_global then (b.whois_ip ip).map some else .ok none

/-- Whether line 143 runs the registry call, i.e. the guard at line 142. -/
def whois_invoked (ip : IPAddr) : Bool := ip.is_global

/-- Model of `get_request_info` (src/main.py lines 114-177).  The steps
appear in the source's evaluation order, so that the first raised exception
is the one that propagates; `nowEpoch` stands for the wall clock and
`choice` for `random.choice` in `ip_fun_fact`. -/
def get_request_info (cfg : Config) (b : Backends) (req : RequestData)
    (nowEpoch : Int) (choice : Fin 18) (fill_http_info : Bool) :
    Except PyError RequestInfo := do
  let is_https := req.url_scheme == "https"
  let client_ip := req.client_ip
  let client_reverse_dns := reverse_dns_of client_ip.str b
  let http_version :=
    (dictGet req.headers (lowerStr cfg.header_http_version)).getD
      req.scope_http_version
  let port_val := client_port_raw req.client_port req.headers
    cfg.header_client_port
  let transport :=
    lowerStr ((dictGet req.headers
      (lowerStr cfg.header_transport_protocol)).getD "tcp")
  let rtime ← effective_request_time cfg req.headers nowEpoch
  let headers := strip_x_headers req.headers
  let info ← registry_lookup b client_ip
  let registrant ← registrant_field info
  let fact ← ip_fun_fact client_ip choice
  let port ← pydantic_coerce_int port_val
  let addr : AddressInfo :=
    { ip := client_ip.str,
      ip_version := client_ip.ip_version,
      reverse_dns := client_reverse_dns,
      reverse_pointer := client_ip.reverse_pointer,
      ip_info_url := info.bind (fun i => i.url),
      country := info.bind (fun i => i.country),
      registrant := registrant,
      entity_name := info.bind (fun i => i.name),
      description := info.bind (fun i => i.description),
      fun_fact := some fact }
  let hinfo : Option HttpInfo :=
    if fill_http_info then
      some { method := req.method, version := http_version,
             headers := headers, body := req.body, is_https := is_https,
             transport_protocol := transport, url := req.url_full,
             path := req.url_path, query := req.url_query }
    else none
  .ok { address_info := addr, http_info := hinfo,
        request_hostname := req.url_hostname, client_port := port,
        scheme := req.url_scheme, request_time := rtime }

/-- A deterministic stub backend: reverse lookups echo their argument (the
behavior of the socket layer when no PTR record exists) and the registry
answers a fixed, fully populated record. -/
def stub_backends : Backends :=
  { getnameinfo := fun s => s,
    getfqdn := fun s => s,
    whois_ip := fun _ =>
      .ok { url := some "https://rdap.example.net/ip/query",
            country := some "DE",
            name := some "EXAMPLE-NET",
            description := some ["example allocation"],
            entities := some [("registrant", [{ name := some "Example Org" }])] } }

/-- A concrete baseline request: client 192.0.2.1 (TEST-NET-1, in the
private table, so the registry is not consulted), socket port 51000, two
ordinary headers. -/
def base_request : RequestData :=
  { url_hostname := some "echo.example",
    url_scheme := "https",
    url_path := "/api/v1",
    url_query := "",
    url_full := "https://echo.example/api/v1",
    method := "GET",
    scope_http_version := "1.1",
    client_ip := .v4 (192 * 2 ^ 24 + 2 * 2 ^ 8 + 1),
    client_port := 51000,
    headers := [("host", "echo.example"), ("accept", "text/html")],
    body := "" }

/-- Blank out the two per-call volatile fields of a `RequestInfo`: the fun
fact (random) and the request time (clock). -/
def erase_volatile (r : RequestInfo) : RequestInfo :=
  { r with request_time := ⟨0, 0⟩,
           address_info := { r.address_info with fun_fact := none } }

/-- Request used by the C6 exhibits: socket port as given, the client-port
override header set to "4242". -/
def c6_request (sockPort : Nat) : RequestData :=
  { base_request with
      client_port := sockPort,
      headers := base_request.headers ++ [("x-client-port", "4242")] }

/-- Request used by the C10 witness: two ordinary headers, one custom
x-header that is not an override name, and the x-client-port override. -/
def c10_request : RequestData :=
  { base_request with
      headers := [("host", "echo.example"), ("accept", "text/html"),
        ("x-custom-tag", "7"), ("x-client-port", "4242")] }

/-- Configuration used by the C5 counterexample: the client-port override
header renamed (as the environment variables allow) to a name without an
"x-" prefix. -/
def c5_config : Config :=
  { default_config with header_client_port := "Client-Port" }

/-- Request used by the C5 counterexample: socket port 0 and the renamed
override header carrying "4242". -/
def c5_request : RequestData :=
  { base_request with
      client_port := 0,
      headers := [("host", "echo.example"), ("client-port", "4242")] }

/-- Request used by the C2 exhibits: the request-time override header
carries a string that is not ISO-8601. -/
def c2_request : RequestData :=
  { base_request with
      headers := [("host", "echo.example"), ("x-request-time", "not-a-date")] }

/-- Request used by the C7 exhibits: the request-time override header
carries an aware ISO-8601 timestamp at UTC. -/
def c7_request : RequestData :=
  { base_request with
      headers := [("host", "echo.example"),
        ("x-request-time", "2024-01-01T00:00:00+00:00")] }

theorem lt_float_bound_of_lt_pow {n : Nat} (k : Nat) (hk : k ≤ 200)
    (h : n < 2 ^ k) : n < FLOAT_OVERFLOW_BOUND := by
  unfold FLOAT_OVERFLOW_BOUND
  calc n < 2 ^ k := h
    _ ≤ 2 ^ 200 := Nat.pow_le_pow_right (by norm_num) hk
    _ < 2 ^ 1024 := Nat.pow_lt_pow_right (by norm_num) (by norm_num)

theorem ip_fun_fact_total (a : IPAddr) (c : Fin 18)
    (hv : a.valid = true) : ∃ s, ip_fun_fact a c = .ok s := by
  have hb : a.toInt < 2 ^ 128 := by
    cases a with
    | v4 v =>
      simp only [IPAddr.valid, decide_eq_true_eq] at hv
      simp only [IPAddr.toInt]
      calc v < 2 ^ 32 := hv
        _ ≤ 2 ^ 128 := Nat.pow_le_pow_right (by norm_num) (by norm_num)
    | v6 v => simpa [IPAddr.valid, IPAddr.toInt] using hv
  have h1 : int_to_float_check a.toInt = .ok () := by
    unfold int_to_float_check
    rw [if_pos (lt_float_bound_of_lt_pow 128 (by norm_num) hb)]
  have hmul : ∀ ynum yden : Nat, ynum ≤ 10 ^ 16 →
      ∃ t, multiply_ip a ynum yden = .ok t := by
    intro ynum yden hy2
    have hp : a.toInt * ynum / yden < 2 ^ 183 := by
      have hstep : a.toInt * ynum < 2 ^ 183 := by
        calc a.toInt * ynum ≤ a.toInt * 10 ^ 16 :=
              Nat.mul_le_mul_left _ hy2
          _ < 2 ^ 128 * 10 ^ 16 := by
              exact Nat.mul_lt_mul_of_lt_of_le hb (le_refl _) (by norm_num)
          _ ≤ 2 ^ 128 * 2 ^ 55 := by
              exact Nat.mul_le_mul_left _ (by norm_num)
          _ = 2 ^ 183 := by rw [← pow_add]
      calc a.toInt * ynum / yden ≤ a.toInt * ynum := Nat.div_le_self _ _
        _ < 2 ^ 183 := hstep
    have h2 : int_to_float_check (a.toInt * ynum / yden) = .ok () := by
      unfold int_to_float_check
      rw [if_pos (lt_float_bound_of_lt_pow 183 (by norm_num) hp)]
    unfold multiply_ip
    rw [h1, h2]
    have hok : ∃ r, ip_address_of_int (a.toInt * ynum / yden %
        (if a.ip_version == 4 then 2 ^ 32 - 1 else 2 ^ 128 - 1)) = .ok r := by
      unfold ip_address_of_int
      by_cases h4 : (a.ip_version == 4) = true
      · rw [h4]
        simp only [if_true]
        have hm : a.toInt * ynum / yden % (2 ^ 32 - 1) < 2 ^ 32 := by
          have := Nat.mod_lt (a.toInt * ynum / yden)
            (y := 2 ^ 32 - 1) (by norm_num)
          omega
        rw [if_pos hm]
        exact ⟨_, rfl⟩
      · rw [Bool.not_eq_true] at h4
        rw [h4]
        simp only [Bool.false_eq_true, if_false]
        have hm : a.toInt * ynum / yden % (2 ^ 128 - 1) < 2 ^ 128 := by
          have := Nat.mod_lt (a.toInt * ynum / yden)
            (y := 2 ^ 128 - 1) (by norm_num)
          omega
        by_cases hm32 : a.toInt * ynum / yden % (2 ^ 128 - 1) < 2 ^ 32
        · rw [if_pos hm32]; exact ⟨_, rfl⟩
        · rw [if_neg hm32, if_pos hm]; exact ⟨_, rfl⟩
    obtain ⟨r, hr⟩ := hok
    rw [hr]
    exact ⟨_, rfl⟩
  have h11 : int_to_float_check (a.toInt * 53 * 5) = .ok () := by
    unfold int_to_float_check
    have : a.toInt * 53 * 5 < 2 ^ 138 := by
      calc a.toInt * 53 * 5 = a.toInt * 265 := by ring
        _ < 2 ^ 128 * 265 := by
            exact Nat.mul_lt_mul_of_lt_of_le hb (le_refl _) (by norm_num)
        _ ≤ 2 ^ 128 * 2 ^ 10 := Nat.mul_le_mul_left _ (by norm_num)
        _ = 2 ^ 138 := by rw [← pow_add]
    rw [if_pos (lt_float_bound_of_lt_pow 138 (by norm_num) this)]
  obtain ⟨cv, hc⟩ := c
  interval_cases cv <;>
    simp only [ip_fun_fact, bind, Except.bind, h1, h11, pure]
  case _ => exact ⟨_, rfl⟩
  case _ => exact ⟨_, rfl⟩
  case _ => exact ⟨_, rfl⟩
  case _ => exact ⟨_, rfl⟩
  case _ => exact ⟨_, rfl⟩
  · obtain ⟨t, ht⟩ := hmul 3141592653589793 (10 ^ 15) (by norm_num)
    rw [ht]; exact ⟨_, rfl⟩
  · obtain ⟨t, ht⟩ := hmul 2718281828459045 (10 ^ 15) (by norm_num)
    rw [ht]; exact ⟨_, rfl⟩
  case _ => exact ⟨_, rfl⟩
  case _ => exact ⟨_, rfl⟩
  · obtain ⟨t, ht⟩ := hmul 42 100 (by norm_num)
    rw [ht]; exact ⟨_, rfl⟩
  case _ => exact ⟨_, rfl⟩
  case _ => exact ⟨_, rfl⟩
  case _ => exact ⟨_, rfl⟩
  case _ => exact ⟨_, rfl⟩
  case _ => exact ⟨_, rfl⟩
  case _ => exact ⟨_, rfl⟩
  case _ => exact ⟨_, rfl⟩
  case _ => exact ⟨_, rfl⟩

theorem get_request_info_ok (cfg : Config) (b : Backends) (req : RequestData)
    (nowEpoch : Int) (choice : Fin 18) (fill : Bool) (res : RequestInfo)
    (h : get_request_info cfg b req nowEpoch choice fill = .ok res) :
    ∃ rtime info registrant fact port,
      effective_request_time cfg req.headers nowEpoch = .ok rtime ∧
      registry_lookup b req.client_ip = .ok info ∧
      registrant_field info = .ok registrant ∧
      ip_fun_fact req.client_ip choice = .ok fact ∧
      pydantic_coerce_int (client_port_raw req.client_port req.headers
        cfg.header_client_port) = .ok port ∧
      res =
        { address_info :=
            { ip := req.client_ip.str,
              ip_version := req.client_ip.ip_version,
              reverse_dns := reverse_dns_of req.client_ip.str b,
              reverse_pointer := req.client_ip.reverse_pointer,
              ip_info_url := info.bind (fun i => i.url),
              country := info.bind (fun i => i.country),
              registrant := registrant,
              entity_name := info.bind (fun i => i.name),
              description := info.bind (fun i => i.description),
              fun_fact := some fact },
          http_info :=
            if fill then
              some { method := req.method,
                     version := (dictGet req.headers
                       (lowerStr cfg.header_http_version)).getD
                       req.scope_http_version,
                     headers := strip_x_headers req.headers,
                     body := req.body,
                     is_https := req.url_scheme == "https",
                     transport_protocol := lowerStr ((dictGet req.headers
                       (lowerStr cfg.header_transport_protocol)).getD
                       "tcp"),
                     url := req.url_full, path := req.url_path,
                     query := req.url_query }
            else none,
          request_hostname := req.url_hostname,
          client_port := port,
          scheme := req.url_scheme,
          request_time := rtime } := by
  unfold get_request_info at h
  cases h1 : effective_request_time cfg req.headers nowEpoch with
  | error e =>
    rw [h1] at h
    simp only [bind, Except.bind] at h
    exact Except.noConfusion h
  | ok rtime =>
  rw [h1] at h
  simp only [bind, Except.bind] at h
  cases h2 : registry_lookup b req.client_ip with
  | error e =>
    rw [h2] at h
    simp only at h
    exact Except.noConfusion h
  | ok info =>
  rw [h2] at h
  simp only at h
  cases h3 : registrant_field info with
  | error e =>
    rw [h3] at h
    simp only at h
    exact Except.noConfusion h
  | ok registrant =>
  rw [h3] at h
  simp only at h
  cases h4 : ip_fun_fact req.client_ip choice with
  | error e =>
    rw [h4] at h
    simp only at h
    exact Except.noConfusion h
  | ok fact =>
  rw [h4] at h
  simp only at h
  cases h5 : pydantic_coerce_int (client_port_raw req.client_port req.headers
      cfg.header_client_port) with
  | error e =>
    rw [h5] at h
    simp only at h
    exact Except.noConfusion h
  | ok port =>
  rw [h5] at h
  simp only [Except.ok.injEq] at h
  exact ⟨rtime, info, registrant, fact, port, rfl, rfl, h3, rfl, rfl, h.symm⟩

theorem v4_private_of_loopback {v : Nat} (h : v4_is_loopback v = true) :
    v4_is_private v = true := by
  simp only [v4_is_loopback, inRange, Bool.and_eq_true, decide_eq_true_eq] at h
  simp only [v4_is_private, v4_private_networks, List.any_cons, List.any_nil,
    inRange, Bool.or_eq_true, Bool.and_eq_true, decide_eq_true_eq]
  omega

theorem v4_private_of_link_local {v : Nat} (h : v4_is_link_local v = true) :
    v4_is_private v = true := by
  simp only [v4_is_link_local, inRange, Bool.and_eq_true, decide_eq_true_eq] at h
  simp only [v4_is_private, v4_private_networks, List.any_cons, List.any_nil,
    inRange, Bool.or_eq_true, Bool.and_eq_true, decide_eq_true_eq]
  omega

theorem v6_mapped_none_of_big {v : Nat} (h : 0xfe80 * 2 ^ 112 ≤ v) :
    v6_ipv4_mapped v = none := by
  unfold v6_ipv4_mapped
  rw [if_neg]
  simp only [inRange, Bool.and_eq_true, decide_eq_true_eq, not_and]
  intro h1
  omega

theorem v6_private_of_loopback {v : Nat} (h : v6_is_loopback v = true) :
    v6_is_private v = true := by
  simp only [v6_is_loopback, beq_iff_eq] at h
  subst h
  decide

theorem v6_private_of_link_local {v : Nat} (h : v6_is_link_local v = true) :
    v6_is_private v = true := by
  simp only [v6_is_link_local, inRange, Bool.and_eq_true, decide_eq_true_eq] at h
  unfold v6_is_private
  rw [v6_mapped_none_of_big h.1]
  simp only [v6_private_networks, List.any_cons, List.any_nil, inRange,
    Bool.or_eq_true, Bool.and_eq_true, decide_eq_true_eq]
  omega

theorem private_of_special (ip : IPAddr)
    (h : ip.is_loopback = true ∨ ip.is_link_local = true ∨
      ip.is_private = true) : ip.is_private = true := by
  rcases h with h | h | h
  · cases ip with
    | v4 v => exact v4_private_of_loopback h
    | v6 v => exact v6_private_of_loopback h
  · cases ip with
    | v4 v => exact v4_private_of_link_local h
    | v6 v => exact v6_private_of_link_local h
  · exact h

theorem not_global_of_private (ip : IPAddr) (h : ip.is_private = true) :
    ip.is_global = false := by
  cases ip with
  | v4 v =>
    simp only [IPAddr.is_private] at h
    simp [IPAddr.is_global, v4_is_global, h]
  | v6 v =>
    simp only [IPAddr.is_private] at h
    simp [IPAddr.is_global, v6_is_global, h]

theorem effective_request_time_cases (cfg : Config)
    (hs : List (String × String)) (n1 n2 : Int) :
    (effective_request_time cfg hs n1 = .ok (datetime_now n1 cfg.tz) ∧
      effective_request_time cfg hs n2 = .ok (datetime_now n2 cfg.tz)) ∨
    effective_request_time cfg hs n1 = effective_request_time cfg hs n2 := by
  unfold effective_request_time
  cases dictGet hs (lowerStr cfg.header_request_time) with
  | none => exact Or.inl ⟨rfl, rfl⟩
  | some s =>
    dsimp only
    by_cases he : (s == "") = true
    · rw [if_pos he, if_pos he]
      exact Or.inl ⟨rfl, rfl⟩
    · rw [if_neg he, if_neg he]
      exact Or.inr rfl

theorem fromisoformat_error_shape {s : String} {e : PyError}
    (h : fromisoformat s = .error e) :
    e = .valueError ("Invalid isoformat string: " ++ s) := by
  unfold fromisoformat at h
  cases hp : parseAwareIso s.data with
  | some dt => rw [hp] at h; exact Except.noConfusion h
  | none =>
    rw [hp] at h
    injection h with h
    exact h.symm


/-- C3: reverse-DNS lookup never raises (it is a total function of total
lookup backends — `getnameinfo` without NI_NAMEREQD answers the numeric
form both on lookup failure and on a missing PTR record, and `getfqdn`
echoes its argument on failure); whenever the lookup pipeline echoes the
IP's own textual form back, the field is null; the field never equals the
IP's own text; and the assembled reverse_dns field is exactly this
function's value. -/
theorem c3_reverse_dns_null (b : Backends) (s : String)
    (hs : pyStrip s = s) :
    reverse_dns_of s b ≠ some s ∧
    (pyStrip (b.getfqdn (b.getnameinfo s)) = s → reverse_dns_of s b = none) ∧
    (∀ cfg req now c fill res,
      get_request_info cfg b req now c fill = .ok res →
      res.address_info.reverse_dns = reverse_dns_of req.client_ip.str b) := by
  refine ⟨?_, ?_, ?_⟩
  · intro hcontra
    unfold reverse_dns_of at hcontra
    by_cases hc : (pyStrip (b.getfqdn (b.getnameinfo s)) == s) = true
    · rw [if_pos hc] at hcontra
      exact Option.noConfusion hcontra
    · rw [if_neg hc] at hcontra
      injection hcontra with hcontra
      apply hc
      rw [hcontra, hs]
      exact beq_self_eq_true s
  · intro h
    unfold reverse_dns_of
    rw [if_pos]
    rw [h]
    exact beq_self_eq_true s
  · intro cfg req now c fill res h
    obtain ⟨rtime, info, reg, fact, port, _, _, _, _, _, hres⟩ :=
      get_request_info_ok cfg b req now c fill res h
    subst hres
    rfl

theorem c3_witness :
    pyStrip "203.0.113.9" = "203.0.113.9" ∧
    reverse_dns_of "203.0.113.9" stub_backends = none ∧
    reverse_dns_of "203.0.113.9" stub_backends ≠ some "203.0.113.9" :=
  ⟨by decide,
   (c3_reverse_dns_null stub_backends "203.0.113.9" (by decide)).2.1
     (by decide),
   (c3_reverse_dns_null stub_backends "203.0.113.9" (by decide)).1⟩


/-- C6: the client-port override header wins only when the socket-observed
port is exactly zero: whenever the socket port is non-zero the assembled
client_port equals it regardless of headers; concretely, socket port 0
plus header value "4242" yields 4242, while socket port 51000 plus the
same header yields 51000. -/
theorem c6_client_port_override :
    (∀ (cfg : Config) (b : Backends) (req : RequestData) (now : Int)
        (c : Fin 18) (fill : Bool) (p : Int),
        req.client_port ≠ 0 →
        (get_request_info cfg b req now c fill).map
          (fun r => r.client_port) = .ok p →
        p = (req.client_port : Int)) ∧
    (get_request_info default_config stub_backends (c6_request 0)
      0 10 true).map (fun r => r.client_port) = .ok 4242 ∧
    (get_request_info default_config stub_backends (c6_request 51000)
      0 10 true).map (fun r => r.client_port) = .ok 51000 := by
  refine ⟨?_, by decide, by decide⟩
  intro cfg b req now c fill p hp h
  cases hg : get_request_info cfg b req now c fill with
  | error e =>
    rw [hg] at h
    exact Except.noConfusion h
  | ok res =>
    rw [hg] at h
    simp only [Except.map] at h
    injection h with h
    obtain ⟨rtime, info, reg, fact, port, _, _, _, _, h5, hres⟩ :=
      get_request_info_ok cfg b req now c fill res hg
    subst hres
    simp only at h
    subst h
    unfold client_port_raw at h5
    rw [if_pos (by simpa using hp)] at h5
    unfold pydantic_coerce_int at h5
    injection h5 with h5
    exact h5.symm

theorem c6_witness :
    (c6_request 51000).client_port ≠ 0 ∧
    (get_request_info default_config stub_backends (c6_request 51000)
      0 10 true).map (fun r => r.client_port) = .ok 51000 ∧
    (51000 : Int) = ((c6_request 51000).client_port : Int) :=
  ⟨by decide, by decide,
   c6_client_port_override.1 default_config stub_backends (c6_request 51000)
     0 10 true 51000 (by decide) (by decide)⟩

theorem exposed_headers_mem (cfg : Config) (b : Backends)
    (req : RequestData) (now : Int) (c : Fin 18)
    (hs : List (String × String))
    (h : (get_request_info cfg b req now c true).map
      (fun r => r.http_info.map (fun hi => hi.headers)) = .ok (some hs)) :
    ∀ k v, ((k, v) ∈ hs ↔
      ((k, v) ∈ req.headers ∧ startsWithStr (lowerStr k) "x-" = false)) := by
  cases hg : get_request_info cfg b req now c true with
  | error e =>
    rw [hg] at h
    exact Except.noConfusion h
  | ok res =>
    rw [hg] at h
    simp only [Except.map] at h
    injection h with h
    obtain ⟨rtime, info, reg, fact, port, _, _, _, _, _, hres⟩ :=
      get_request_info_ok cfg b req now c true res hg
    subst hres
    simp only [if_true, Option.map_some] at h
    injection h with h
    intro k v
    rw [← h]
    simp [strip_x_headers, List.mem_filter]

/-- C10: the exposed headers map is exactly the request headers minus every
header whose name starts with "x-" case-insensitively — an x-prefixed
header is stripped whether or not it is one of the configured override
names, and a header not starting with "x-" is retained whatever the
configuration says. -/
theorem c10_x_headers_stripped (cfg : Config) (b : Backends)
    (req : RequestData) (now : Int) (c : Fin 18)
    (hs : List (String × String))
    (h : (get_request_info cfg b req now c true).map
      (fun r => r.http_info.map (fun hi => hi.headers)) = .ok (some hs)) :
    ∀ k v, ((k, v) ∈ hs ↔
      ((k, v) ∈ req.headers ∧ startsWithStr (lowerStr k) "x-" = false)) :=
  exposed_headers_mem cfg b req now c hs h


theorem c10_witness :
    (("accept", "text/html") ∈ [("host", "echo.example"),
        ("accept", "text/html")] ↔
      (("accept", "text/html") ∈ c10_request.headers ∧
        startsWithStr (lowerStr "accept") "x-" = false)) ∧
    (("x-custom-tag", "7") ∈ [("host", "echo.example"),
        ("accept", "text/html")] ↔
      (("x-custom-tag", "7") ∈ c10_request.headers ∧
        startsWithStr (lowerStr "x-custom-tag") "x-" = false)) :=
  ⟨c10_x_headers_stripped default_config stub_backends c10_request 0 10
      [("host", "echo.example"), ("accept", "text/html")] (by decide)
      "accept" "text/html",
   c10_x_headers_stripped default_config stub_backends c10_request 0 10
      [("host", "echo.example"), ("accept", "text/html")] (by decide)
      "x-custom-tag" "7"⟩



/-- C5 counterexample: with the client-port override header configured as
"Client-Port", the header is consumed as the override (client_port becomes
4242) and yet still appears in the exposed headers map — refuting the
claim that the override header names are removed for any configuration. -/
theorem c5_counterexample_nonx_override_echoed :
    (get_request_info c5_config stub_backends c5_request 0 10 true).map
      (fun r => (r.client_port,
        r.http_info.map (fun hi => dictGet hi.headers "client-port"))) =
    .ok (4242, some (some "4242")) := by decide

/-- C5 amended: the code strips exactly the headers whose names start with
"x-" case-insensitively, so the four override header names are absent from
any exposed headers map whenever each configured name starts with "x-"
(as all four defaults do); an override header configured without an "x-"
prefix is echoed. -/
theorem c5_amended_x_named_overrides_stripped (cfg : Config) (b : Backends)
    (req : RequestData) (now : Int) (c : Fin 18)
    (hs : List (String × String))
    (hx1 : startsWithStr (lowerStr cfg.header_client_port) "x-" = true)
    (hx2 : startsWithStr (lowerStr cfg.header_http_version) "x-" = true)
    (hx3 : startsWithStr (lowerStr cfg.header_transport_protocol) "x-" = true)
    (hx4 : startsWithStr (lowerStr cfg.header_request_time) "x-" = true)
    (h : (get_request_info cfg b req now c true).map
      (fun r => r.http_info.map (fun hi => hi.headers)) = .ok (some hs)) :
    ∀ k v, (k, v) ∈ hs →
      lowerStr k ≠ lowerStr cfg.header_client_port ∧
      lowerStr k ≠ lowerStr cfg.header_http_version ∧
      lowerStr k ≠ lowerStr cfg.header_transport_protocol ∧
      lowerStr k ≠ lowerStr cfg.header_request_time := by
  intro k v hm
  have hk : startsWithStr (lowerStr k) "x-" = false :=
    ((exposed_headers_mem cfg b req now c hs h k v).mp hm).2
  refine ⟨?_, ?_, ?_, ?_⟩ <;> intro he <;> rw [he] at hk
  · rw [hx1] at hk; exact Bool.noConfusion hk
  · rw [hx2] at hk; exact Bool.noConfusion hk
  · rw [hx3] at hk; exact Bool.noConfusion hk
  · rw [hx4] at hk; exact Bool.noConfusion hk

theorem c5_witness :
    lowerStr "host" ≠ lowerStr default_config.header_client_port ∧
    lowerStr "host" ≠ lowerStr default_config.header_http_version ∧
    lowerStr "host" ≠ lowerStr default_config.header_transport_protocol ∧
    lowerStr "host" ≠ lowerStr default_config.header_request_time :=
  c5_amended_x_named_overrides_stripped default_config stub_backends
    c10_request 0 10 [("host", "echo.example"), ("accept", "text/html")]
    (by decide) (by decide) (by decide) (by decide) (by decide)
    "host" "echo.example" (by decide)

/-- C4 counterexample: 224.0.0.1 is an IPv4 multicast address, yet CPython
classifies it as global (the multicast block is not in the private table),
so the guard at src/main.py line 142 does run the registry lookup for it —
a raising registry backend aborts this request, showing the call is made. -/
theorem c4_counterexample_multicast_lookup :
    (IPAddr.v4 3758096385).is_multicast = true ∧
    (IPAddr.v4 3758096385).is_global = true ∧
    whois_invoked (.v4 3758096385) = true ∧
    get_request_info default_config
      { stub_backends with
          whois_ip := fun _ => .error (.valueError "registry reached") }
      { base_request with client_ip := .v4 3758096385 } 0 10 true
      = .error (.valueError "registry reached") := by decide

/-- C4 amended: for every client IP that is private, loopback or
link-local, the registry lookup is never invoked — the guard is false and
the assembled result does not depend on the registry backend at all — and
every registry field of the AddressInfo is null.  (Multicast addresses are
excluded from the amended statement: Python classifies them as global and
the lookup does run for them.) -/
theorem c4_amended_private_no_lookup (cfg : Config) (b : Backends)
    (req : RequestData) (now : Int) (c : Fin 18) (fill : Bool)
    (hsp : req.client_ip.is_loopback = true ∨
      req.client_ip.is_link_local = true ∨ req.client_ip.is_private = true) :
    whois_invoked req.client_ip = false ∧
    (∀ w1 w2, get_request_info cfg { b with whois_ip := w1 } req now c fill =
      get_request_info cfg { b with whois_ip := w2 } req now c fill) ∧
    (∀ ai, (get_request_info cfg b req now c fill).map
        (fun r => r.address_info) = .ok ai →
      ai.ip_info_url = none ∧ ai.country = none ∧ ai.registrant = none ∧
        ai.entity_name = none ∧ ai.description = none) := by
  have hg : req.client_ip.is_global = false :=
    not_global_of_private req.client_ip (private_of_special req.client_ip hsp)
  refine ⟨hg, ?_, ?_⟩
  · intro w1 w2
    unfold get_request_info
    simp [registry_lookup, reverse_dns_of, hg]
  · intro ai h
    cases hr : get_request_info cfg b req now c fill with
    | error e =>
      rw [hr] at h
      exact Except.noConfusion h
    | ok res =>
      rw [hr] at h
      simp only [Except.map] at h
      injection h with h
      obtain ⟨rtime, info, rg, fact, port, _, h2, h3, _, _, hres⟩ :=
        get_request_info_ok cfg b req now c fill res hr
      have hinfo : info = none := by
        unfold registry_lookup at h2
        rw [if_neg (by simp [hg])] at h2
        injection h2 with h2
        exact h2.symm
      subst hinfo
      have hrg : rg = none := by
        unfold registrant_field at h3
        injection h3 with h3
        exact h3.symm
      subst hres
      subst hrg
      subst h
      exact ⟨rfl, rfl, rfl, rfl, rfl⟩

theorem c4_witness :
    (IPAddr.v4 2130706433).is_loopback = true ∧
    whois_invoked (.v4 2130706433) = false ∧
    (get_request_info default_config stub_backends
      { base_request with client_ip := .v4 2130706433 } 0 10 true).map
      (fun r => r.address_info) = .ok
      { ip := "127.0.0.1", ip_version := 4, reverse_dns := none,
        reverse_pointer := "1.0.0.127.in-addr.arpa", ip_info_url := none,
        country := none, registrant := none, entity_name := none,
        description := none,
        fun_fact := some "Google knows your IP." } ∧
    ((none : Option String) = none ∧ (none : Option String) = none ∧
      (none : Option String) = none ∧ (none : Option String) = none ∧
      (none : Option (List String)) = none) :=
  ⟨by decide,
   (c4_amended_private_no_lookup default_config stub_backends
     { base_request with client_ip := .v4 2130706433 } 0 10 true
     (Or.inl (by decide))).1,
   by decide,
   (c4_amended_private_no_lookup default_config stub_backends
     { base_request with client_ip := .v4 2130706433 } 0 10 true
     (Or.inl (by decide))).2.2
     { ip := "127.0.0.1", ip_version := 4, reverse_dns := none,
       reverse_pointer := "1.0.0.127.in-addr.arpa", ip_info_url := none,
       country := none, registrant := none, entity_name := none,
       description := none,
       fun_fact := some "Google knows your IP." } (by decide)⟩


/-- C2 counterexample: with request-time header "not-a-date" the assembly
does not produce a client-error outcome — it raises a plain ValueError
(`datetime.fromisoformat`), which FastAPI, with no handler installed,
surfaces as a 500 server error. -/
theorem c2_counterexample_valueerror_is_500 :
    get_request_info default_config stub_backends c2_request 0 10 true =
      .error (.valueError "Invalid isoformat string: not-a-date") ∧
    is_client_error (.valueError "Invalid isoformat string: not-a-date")
      = false ∧
    fastapi_status_of (.valueError "Invalid isoformat string: not-a-date")
      = 500 := by decide

/-- C2 amended: when the request-time override header is present,
non-empty and not parseable as an (aware) ISO-8601 timestamp, assembly
fails by raising the uncaught ValueError of `fromisoformat`, naming the
malformed value; since the app installs no exception handler and raises no
HTTPException, the outcome is a 500-class server error, not a 400-class
client error. -/
theorem c2_amended_uncaught_valueerror (cfg : Config) (b : Backends)
    (req : RequestData) (now : Int) (c : Fin 18) (fill : Bool) (s : String)
    (h1 : dictGet req.headers (lowerStr cfg.header_request_time) = some s)
    (h2 : (s == "") = false)
    (h3 : parseAwareIso s.data = none) :
    get_request_info cfg b req now c fill =
      .error (.valueError ("Invalid isoformat string: " ++ s)) ∧
    is_client_error (.valueError ("Invalid isoformat string: " ++ s))
      = false ∧
    fastapi_status_of (.valueError ("Invalid isoformat string: " ++ s))
      = 500 := by
  have hrt : effective_request_time cfg req.headers now =
      .error (.valueError ("Invalid isoformat string: " ++ s)) := by
    unfold effective_request_time
    rw [h1]
    dsimp only
    rw [if_neg (by simp [h2])]
    unfold fromisoformat
    rw [h3]
    rfl
  refine ⟨?_, rfl, rfl⟩
  unfold get_request_info
  rw [hrt]
  rfl

theorem c2_witness :
    dictGet c2_request.headers (lowerStr default_config.header_request_time)
      = some "not-a-date" ∧
    ("not-a-date" == "") = false ∧
    parseAwareIso "not-a-date".data = none ∧
    (get_request_info default_config stub_backends c2_request 0 10 true =
      .error (.valueError ("Invalid isoformat string: " ++ "not-a-date")) ∧
    is_client_error (.valueError ("Invalid isoformat string: " ++
      "not-a-date")) = false ∧
    fastapi_status_of (.valueError ("Invalid isoformat string: " ++
      "not-a-date")) = 500) :=
  ⟨by decide, by decide, by decide,
   c2_amended_uncaught_valueerror default_config stub_backends c2_request
     0 10 true "not-a-date" (by decide) (by decide) (by decide)⟩


/-- C7: when the request-time override header holds a valid (aware)
ISO-8601 timestamp, the assembled request_time is that instant converted
to the configured timezone; when the header is absent, it is the current
time, aware in the configured zone.  Concretely, header
"2024-01-01T00:00:00+00:00" under Europe/Berlin yields the instant
1704067200 at offset +60 minutes — exactly the value denoted by
"2024-01-01T01:00:00+01:00". -/
theorem c7_request_time_conversion :
    (∀ (cfg : Config) (b : Backends) (req : RequestData) (now : Int)
        (c : Fin 18) (fill : Bool) (s : String) (dt t : PyDatetime),
        dictGet req.headers (lowerStr cfg.header_request_time) = some s →
        (s == "") = false →
        fromisoformat s = .ok dt →
        (get_request_info cfg b req now c fill).map
          (fun r => r.request_time) = .ok t →
        t = astimezone dt cfg.tz) ∧
    (∀ (cfg : Config) (b : Backends) (req : RequestData) (now : Int)
        (c : Fin 18) (fill : Bool) (t : PyDatetime),
        dictGet req.headers (lowerStr cfg.header_request_time) = none →
        (get_request_info cfg b req now c fill).map
          (fun r => r.request_time) = .ok t →
        t = datetime_now now cfg.tz) ∧
    (get_request_info default_config stub_backends c7_request 0 10
      true).map (fun r => r.request_time) = .ok ⟨1704067200, 60⟩ ∧
    fromisoformat "2024-01-01T01:00:00+01:00" = .ok ⟨1704067200, 60⟩ := by
  refine ⟨?_, ?_, by decide, by decide⟩
  · intro cfg b req now c fill s dt t h1 h2 h3 h
    cases hg : get_request_info cfg b req now c fill with
    | error e =>
      rw [hg] at h
      exact Except.noConfusion h
    | ok res =>
      rw [hg] at h
      simp only [Except.map] at h
      injection h with h
      obtain ⟨rtime, info, rg, fact, port, hr1, _, _, _, _, hres⟩ :=
        get_request_info_ok cfg b req now c fill res hg
      subst hres
      simp only at h
      subst h
      unfold effective_request_time at hr1
      rw [h1] at hr1
      dsimp only at hr1
      rw [if_neg (by simp [h2]), h3] at hr1
      simp only [Except.map] at hr1
      injection hr1 with hr1
      exact hr1.symm
  · intro cfg b req now c fill t h1 h
    cases hg : get_request_info cfg b req now c fill with
    | error e =>
      rw [hg] at h
      exact Except.noConfusion h
    | ok res =>
      rw [hg] at h
      simp only [Except.map] at h
      injection h with h
      obtain ⟨rtime, info, rg, fact, port, hr1, _, _, _, _, hres⟩ :=
        get_request_info_ok cfg b req now c fill res hg
      subst hres
      simp only at h
      subst h
      unfold effective_request_time at hr1
      rw [h1] at hr1
      injection hr1 with hr1
      exact hr1.symm

theorem c7_witness :
    dictGet c7_request.headers (lowerStr default_config.header_request_time)
      = some "2024-01-01T00:00:00+00:00" ∧
    ("2024-01-01T00:00:00+00:00" == "") = false ∧
    fromisoformat "2024-01-01T00:00:00+00:00" = .ok ⟨1704067200, 0⟩ ∧
    (⟨1704067200, 60⟩ : PyDatetime) =
      astimezone ⟨1704067200, 0⟩ default_config.tz :=
  ⟨by decide, by decide, by decide,
   c7_request_time_conversion.1 default_config stub_backends c7_request
     0 10 true "2024-01-01T00:00:00+00:00" ⟨1704067200, 0⟩ ⟨1704067200, 60⟩
     (by decide) (by decide) (by decide) (by decide)⟩

/-- C8: the fun-fact generator is total — for every valid IPv4 or IPv6
address and every choice from the 18-entry catalog it returns a string and
never raises; in particular no square root, modulo,
multiplication-then-modulo, scientific-notation formatting, zero address
or maximum address of either family reaches an error (every int-to-float
conversion stays far below the double overflow threshold). -/
theorem c8_fun_fact_total (a : IPAddr) (c : Fin 18) (hv : a.valid = true) :
    ∃ s, ip_fun_fact a c = .ok s :=
  ip_fun_fact_total a c hv

theorem c8_witness :
    ((IPAddr.v6 (2 ^ 128 - 1)).valid = true ∧
      ∃ s, ip_fun_fact (.v6 (2 ^ 128 - 1)) 0 = .ok s) ∧
    ((IPAddr.v4 0).valid = true ∧
      ∃ s, ip_fun_fact (.v4 0) 5 = .ok s) ∧
    ((IPAddr.v4 (2 ^ 32 - 1)).valid = true ∧
      ∃ s, ip_fun_fact (.v4 (2 ^ 32 - 1)) 11 = .ok s) ∧
    ((IPAddr.v6 0).valid = true ∧
      ∃ s, ip_fun_fact (.v6 0) 12 = .ok s) :=
  ⟨⟨by decide, c8_fun_fact_total (.v6 (2 ^ 128 - 1)) 0 (by decide)⟩,
   ⟨by decide, c8_fun_fact_total (.v4 0) 5 (by decide)⟩,
   ⟨by decide, c8_fun_fact_total (.v4 (2 ^ 32 - 1)) 11 (by decide)⟩,
   ⟨by decide, c8_fun_fact_total (.v6 0) 12 (by decide)⟩⟩

/-- C9: assembly is deterministic modulo randomness and time — two runs on
byte-identical request data against the same stubbed deterministic
backends, differing only in the wall clock and the random fun-fact choice,
produce identical RequestInfo records once the fun_fact and request_time
fields are blanked. -/
theorem c9_deterministic_modulo_random_time (cfg : Config) (b : Backends)
    (req : RequestData) (fill : Bool) (n1 n2 : Int) (c1 c2 : Fin 18)
    (hv : req.client_ip.valid = true) :
    (get_request_info cfg b req n1 c1 fill).map erase_volatile =
      (get_request_info cfg b req n2 c2 fill).map erase_volatile := by
  obtain ⟨f1, hf1⟩ := ip_fun_fact_total req.client_ip c1 hv
  obtain ⟨f2, hf2⟩ := ip_fun_fact_total req.client_ip c2 hv
  have main : ∀ rt1 rt2 : PyDatetime,
      effective_request_time cfg req.headers n1 = .ok rt1 →
      effective_request_time cfg req.headers n2 = .ok rt2 →
      (get_request_info cfg b req n1 c1 fill).map erase_volatile =
        (get_request_info cfg b req n2 c2 fill).map erase_volatile := by
    intro rt1 rt2 ht1 ht2
    unfold get_request_info
    rw [ht1, ht2]
    simp only [bind, Except.bind]
    try dsimp only
    cases h2 : registry_lookup b req.client_ip with
    | error e => rfl
    | ok info =>
      try dsimp only
      cases h3 : registrant_field info with
      | error e => rfl
      | ok reg =>
        try dsimp only
        rw [hf1, hf2]
        try dsimp only
        cases h5 : pydantic_coerce_int (client_port_raw req.client_port
            req.headers cfg.header_client_port) with
        | error e => rfl
        | ok port =>
          rfl
  rcases effective_request_time_cases cfg req.headers n1 n2 with
    ⟨ha, hb2⟩ | heq
  · exact main (datetime_now n1 cfg.tz) (datetime_now n2 cfg.tz) ha hb2
  · cases hrt : effective_request_time cfg req.headers n2 with
    | error e =>
      unfold get_request_info
      rw [heq, hrt]
      rfl
    | ok rtime => exact main rtime rtime (heq.trans hrt) hrt

theorem c9_witness :
    base_request.client_ip.valid = true ∧
    (get_request_info default_config stub_backends base_request
        0 3 true).map erase_volatile =
      (get_request_info default_config stub_backends base_request
        999999 7 true).map erase_volatile :=
  ⟨by decide,
   c9_deterministic_modulo_random_time default_config stub_backends
     base_request true 0 999999 3 7 (by decide)⟩

/-- C1 (code-bug exhibit): 1.1.1.1 is globally routable, and the
registrant chain at src/main.py line 154 raises instead of degrading —
a response whose entities dict lacks the "registrant" role raises
TypeError, an empty registrant list raises IndexError, a response without
an entities key raises AttributeError, and an exception from the registry
call itself propagates uncaught: in all four cases assembly aborts rather
than yielding null fields. -/
theorem c1_registrant_chain_raises :
    (IPAddr.v4 16843009).is_global = true ∧
    get_request_info default_config
      { stub_backends with
          whois_ip := fun _ =>
            .ok { url := some "https://rdap.example.net/ip/q",
                  country := some "AU", name := some "EXAMPLE-NET-TWO",
                  description := some ["d"],
                  entities := some [("technical",
                    [{ name := some "Tech Person" }])] } }
      { base_request with client_ip := .v4 16843009 } 0 10 true
      = .error (.typeError "NoneType object is not subscriptable") ∧
    get_request_info default_config
      { stub_backends with
          whois_ip := fun _ =>
            .ok { url := none, country := none, name := none,
                  description := none,
                  entities := some [("registrant", [])] } }
      { base_request with client_ip := .v4 16843009 } 0 10 true
      = .error (.indexError "list index out of range") ∧
    get_request_info default_config
      { stub_backends with
          whois_ip := fun _ =>
            .ok { url := none, country := none, name := none,
                  description := none, entities := none } }
      { base_request with client_ip := .v4 16843009 } 0 10 true
      = .error (.attributeError "NoneType object has no attribute get") ∧
    get_request_info default_config
      { stub_backends with
          whois_ip := fun _ => .error (.valueError "RDAP query failed") }
      { base_request with client_ip := .v4 16843009 } 0 10 true
      = .error (.valueError "RDAP query failed") := by decide
